import Mathlib

/-!
Verification of the packetdrill TCP packet builder
(src/gtests/net/packetdrill/tcp_packet.c).

The definitions below are a shallow embedding of tcp_packet.c.  Machine
integers are modelled as Nat (with explicit mod where truncation matters)
and the signed 32-bit window as Int; the error out-parameter of the C code
is modelled as an Except result.  Constants and struct layouts that live in
headers outside the sources (tcp.h, ip_packet.h, packet.h, tcp_packet.h)
are modelled from the spec and carry a doc comment saying so.
-/

/-- Modelled from the spec: the address families supported by the builder
(the v4/v6 cases of section 4.2); the enum itself lives outside src/. -/
inductive AddressFamily where
  | afInet
  | afInet6
deriving DecidableEq, Repr

/-- Modelled from the spec: packet direction, outbound-from-test-tool vs
inbound-expected (enum direction_t lives outside src/). -/
inductive Direction where
  | inbound
  | outbound
deriving DecidableEq, Repr

/-- Modelled from the spec: the upper-layer protocol passed to the external
IP-header writer (IPPROTO_TCP / IPPROTO_UDP). -/
inductive IpProto where
  | tcp
  | udp
deriving DecidableEq, Repr

/-- The tcp_options input blob: a length plus raw bytes (struct tcp_options,
declared outside src/; the builder only reads length and data). -/
structure TcpOptions where
  length : Nat
  data : List Nat
deriving DecidableEq, Repr

/-- The typed build errors of new_tcp_packet, one per asprintf message in
tcp_packet.c (section 7 of the spec blesses the typed-result reading). -/
inductive BuildError where
  | invalidFlag (c : Char)
  | conflictingFlag (c : Char)
  | unalignedIpOptions (n : Nat)
  | unalignedOptions (n : Nat)
  | headerTooLarge
  | datagramTooLarge
  | windowRequired
deriving DecidableEq, Repr

/-- The full list of valid TCP bit flag characters (tcp_packet.c line 40). -/
def validTcpFlags : List Char :=
  ['.', 'F', 'S', 'R', 'P', 'E', 'W', 'A', '0', '1', '2', '3', '4', '5', '6', '7']

/-- The numeric ACE shorthand characters (tcp_packet.c line 41). -/
def aceTcpFlags : List Char := ['0', '1', '2', '3', '4', '5', '6', '7']

/-- The letter-based ECN flag characters (tcp_packet.c line 42). -/
def ecnTcpFlags : List Char := ['E', 'W', 'A']

/-- Embedding of is_tcp_flags_spec_valid (tcp_packet.c lines 45-77).
The C scans the string left to right keeping has_ecn_flag / has_ace_flag;
the ECN and ACE character sets are disjoint, so the two successive ifs of
the C body are rendered as an if/else chain. -/
def is_tcp_flags_spec_valid : List Char → Bool → Bool → Except BuildError Unit
  | [], _, _ => Except.ok ()
  | c :: s, has_ecn_flag, has_ace_flag =>
    if c ∉ validTcpFlags then Except.error (BuildError.invalidFlag c)
    else if c ∈ ecnTcpFlags then
      if has_ace_flag then Except.error (BuildError.conflictingFlag c)
      else is_tcp_flags_spec_valid s true has_ace_flag
    else if c ∈ aceTcpFlags then
      if has_ecn_flag then Except.error (BuildError.conflictingFlag c)
      else if !has_ace_flag then is_tcp_flags_spec_valid s has_ecn_flag true
      else Except.error (BuildError.conflictingFlag c)
    else is_tcp_flags_spec_valid s has_ecn_flag has_ace_flag

/-- Embedding of is_tcp_flag_set (tcp_packet.c lines 80-83); the C returns
the int 0/1 that is assigned to a one-bit field, modelled as Bool. -/
def is_tcp_flag_set (flag : Char) (flags : List Char) : Bool :=
  decide (flag ∈ flags)

/-- Embedding of tcp_flag_ace_count (tcp_packet.c lines 86-96): the value of
the first numeric ACE character, or 0 when there is none. -/
def tcp_flag_ace_count : List Char → Nat
  | [] => 0
  | c :: s =>
    if c ∈ aceTcpFlags then c.toNat - '0'.toNat else tcp_flag_ace_count s

/-- ip_option_bytes is the local constant 0 of new_tcp_packet (line 118). -/
def ip_option_bytes : Nat := 0

/-- Modelled from the spec: minimum IP header length per address family
(ip_header_min_len lives in ip_packet.h, outside src/): 20 bytes for the
v4 case and 40 for the v6 case. -/
def ip_header_min_len : AddressFamily → Nat
  | AddressFamily.afInet => 20
  | AddressFamily.afInet6 => 40

/-- Modelled from the spec: sizeof(struct tcp), the fixed TCP header size
(tcp.h is outside src/): 20 bytes. -/
def sizeof_tcp : Nat := 20

/-- Modelled from the spec: sizeof(struct udp), the fixed 8-byte UDP header
(outside src/). -/
def sizeof_udp : Nat := 8

/-- Modelled from the spec: the maximum TCP header size ceiling
(tcp_packet.h is outside src/); the TCP data-offset field counts 32-bit
words in 4 bits, giving 60 bytes. -/
def MAX_TCP_HEADER_BYTES : Nat := 60

/-- Modelled from the spec: the maximum datagram size ceiling
(tcp_packet.h is outside src/): 64 KiB. -/
def MAX_TCP_DATAGRAM_BYTES : Nat := 64 * 1024

/-- Modelled from the spec: hint-flag bitset values (packet.h is outside
src/); only distinctness of the bits matters to the builder. -/
def FLAG_WIN_NOCHECK : Nat := 1

/-- Modelled from the spec: hint flag set when no options object is given. -/
def FLAG_OPTIONS_NOCHECK : Nat := 2

/-- Modelled from the spec: absolute-timestamp-echo hint flag. -/
def FLAG_ABSOLUTE_TS_ECR : Nat := 4

/-- Modelled from the spec: ignore-timestamp-value hint flag. -/
def FLAG_IGNORE_TS_VAL : Nat := 8

/-- Modelled from the spec: absolute-sequence hint flag. -/
def FLAG_ABSOLUTE_SEQ : Nat := 16

/-- Modelled from the spec: ignore-sequence hint flag. -/
def FLAG_IGNORE_SEQ : Nat := 32

/-- Modelled from the spec: marker flag for UDP-encapsulated packets. -/
def FLAGS_UDP_ENCAPSULATED : Nat := 64

/-- Big-endian (network byte order) encoding of a 16-bit value, the
htons of the source. -/
def be16 (n : Nat) : List Nat := [n / 256 % 256, n % 256]

/-- Big-endian (network byte order) encoding of a 32-bit value, the
htonl of the source. -/
def be32 (n : Nat) : List Nat :=
  [n / 16777216 % 256, n / 65536 % 256, n / 256 % 256, n % 256]

/-- Numeric value of a one-bit field. -/
def boolBit (b : Bool) : Nat := if b then 1 else 0

/-- The view of the fixed TCP header fields that new_tcp_packet writes
through packet->tcp (struct tcp of tcp.h, outside src/). -/
structure TcpHdr where
  src_port : Nat
  dst_port : Nat
  seq : Nat
  ack_seq : Nat
  doff : Nat
  window : Nat
  check : Nat
  urg_ptr : Nat
  fin : Bool
  syn : Bool
  rst : Bool
  psh : Bool
  ack : Bool
  urg : Bool
  ece : Bool
  cwr : Bool
  ae : Bool
deriving DecidableEq, Repr

/-- Modelled from the spec: the on-wire layout of struct tcp (tcp.h is
outside src/): 16- and 32-bit fields big-endian; byte 12 holds the data
offset in the high nibble and the ae bit in the low bit; byte 13 holds
cwr..fin from the high bit down. -/
def serializeTcp (t : TcpHdr) : List Nat :=
  be16 t.src_port ++ be16 t.dst_port ++ be32 t.seq ++ be32 t.ack_seq ++
  [t.doff % 16 * 16 + boolBit t.ae,
   128 * boolBit t.cwr + 64 * boolBit t.ece + 32 * boolBit t.urg +
   16 * boolBit t.ack + 8 * boolBit t.psh + 4 * boolBit t.rst +
   2 * boolBit t.syn + boolBit t.fin] ++
  be16 t.window ++ be16 t.check ++ be16 t.urg_ptr

/-- The packet object returned by new_tcp_packet: the contiguous buffer,
the metadata tags, and the TCP header view (struct packet, outside src/;
only the fields new_tcp_packet touches are modelled). -/
structure Packet where
  buffer : List Nat
  direction : Direction
  flags : Nat
  ecn : Nat
  ip_bytes : Nat
  tcp : TcpHdr
deriving DecidableEq, Repr

/-- Modelled from the spec: the external IP-header writer
set_packet_ip_header, which fills the first ip_header_bytes of the buffer
from the family, total length, ecn codepoint and upper protocol; its
contents are out of scope, so it is kept as a parameter of the builder. -/
def IpWriter : Type := AddressFamily → Nat → Nat → IpProto → List Nat

/-- A concrete IP writer used to instantiate closed statements; the buffer
region it fills is zero. -/
def zeroIpWriter : IpWriter := fun _ _ _ _ => []

/-- tcp_option_bytes (tcp_packet.c line 119). -/
def tcpOptionBytesOf : Option TcpOptions → Nat
  | none => 0
  | some o => o.length

/-- tcp_header_bytes (tcp_packet.c line 123). -/
def tcpHeaderBytesOf (o : Option TcpOptions) : Nat :=
  sizeof_tcp + tcpOptionBytesOf o

/-- encapsulate (tcp_packet.c line 125): non-zero UDP port requests UDP
encapsulation. -/
def encapsulateOf (udp_src_port udp_dst_port : Nat) : Bool :=
  decide (0 < udp_src_port) || decide (0 < udp_dst_port)

/-- ip_bytes (tcp_packet.c lines 150-153). -/
def ipBytesOf (af : AddressFamily) (o : Option TcpOptions)
    (tcp_payload_bytes udp_src_port udp_dst_port : Nat) : Nat :=
  ip_header_min_len af + ip_option_bytes + tcpHeaderBytesOf o +
    tcp_payload_bytes +
    (if encapsulateOf udp_src_port udp_dst_port then sizeof_udp else 0)

/-- Writing xs into a pre-zeroed region of n bytes. -/
def padTake (n : Nat) (xs : List Nat) : List Nat :=
  xs.take n ++ List.replicate (n - xs.length) 0

/-- The option bytes memcpy-ed after the fixed TCP header (lines 236-240):
exactly length bytes read from the data blob. -/
def optBytesOf : Option TcpOptions → List Nat
  | none => []
  | some o => (o.data ++ List.replicate o.length 0).take o.length

/-- The packet built on the success path of new_tcp_packet (lines 162-256):
the buffer regions in order are the IP header written by the external
writer, the optional UDP header, the fixed TCP header, the copied option
bytes and the zero payload. -/
def buildPacket (setIp : IpWriter) (address_family : AddressFamily)
    (direction : Direction) (ecn : Nat) (flags : List Char)
    (start_sequence : Nat) (tcp_payload_bytes : Nat) (ack_sequence : Nat)
    (window : Int) (tcp_options : Option TcpOptions)
    (ignore_ts_val abs_ts_ecr abs_seq ignore_seq : Bool)
    (udp_src_port udp_dst_port : Nat) : Packet :=
  let tcp_header_bytes := tcpHeaderBytesOf tcp_options
  let ip_header_bytes := ip_header_min_len address_family + ip_option_bytes
  let encapsulate := encapsulateOf udp_src_port udp_dst_port
  let ip_bytes := ipBytesOf address_family tcp_options tcp_payload_bytes
    udp_src_port udp_dst_port
  let ace := tcp_flag_ace_count flags
  let tcpHdr : TcpHdr := {
    src_port := 0
    dst_port := 0
    seq := start_sequence
    ack_seq := ack_sequence
    doff := tcp_header_bytes / 4
    window := if window = -1 then 0 else (window % 65536).toNat
    check := 0
    urg_ptr := 0
    fin := is_tcp_flag_set 'F' flags
    syn := is_tcp_flag_set 'S' flags
    rst := is_tcp_flag_set 'R' flags
    psh := is_tcp_flag_set 'P' flags
    ack := is_tcp_flag_set '.' flags
    urg := false
    ece := if ace ≠ 0 then decide (ace &&& 1 = 1) else is_tcp_flag_set 'E' flags
    cwr := if ace ≠ 0 then decide (ace &&& 2 = 2) else is_tcp_flag_set 'W' flags
    ae := if ace ≠ 0 then decide (ace &&& 4 = 4) else is_tcp_flag_set 'A' flags }
  let udpRegion :=
    if encapsulate then
      be16 udp_src_port ++ be16 udp_dst_port ++
      be16 (sizeof_udp + tcp_header_bytes + tcp_payload_bytes) ++ be16 0
    else []
  let buffer :=
    padTake ip_header_bytes
      (setIp address_family ip_bytes ecn
        (if encapsulate then IpProto.udp else IpProto.tcp)) ++
    udpRegion ++ serializeTcp tcpHdr ++ optBytesOf tcp_options ++
    List.replicate tcp_payload_bytes 0
  let pflags :=
    (if encapsulate then FLAGS_UDP_ENCAPSULATED else 0) |||
    (if window = -1 then FLAG_WIN_NOCHECK else 0) |||
    (if tcp_options = none then FLAG_OPTIONS_NOCHECK else 0) |||
    (if ignore_ts_val then FLAG_IGNORE_TS_VAL else 0) |||
    (if abs_ts_ecr then FLAG_ABSOLUTE_TS_ECR else 0) |||
    (if abs_seq then FLAG_ABSOLUTE_SEQ else 0) |||
    (if ignore_seq then FLAG_IGNORE_SEQ else 0)
  { buffer := buffer
    direction := direction
    flags := pflags
    ecn := ecn
    ip_bytes := ip_bytes
    tcp := tcpHdr }

/-- Embedding of new_tcp_packet (tcp_packet.c lines 98-257).  The checks
appear in source order: IP option alignment, TCP option alignment, header
ceiling, datagram ceiling, flag grammar, and finally the window-on-inbound
check.  In the source the window check runs after allocation and frees the
packet on that path, so the value returned to the caller is the same. -/
def new_tcp_packet (setIp : IpWriter) (address_family : AddressFamily)
    (direction : Direction) (ecn : Nat) (flags : List Char)
    (start_sequence : Nat) (tcp_payload_bytes : Nat) (ack_sequence : Nat)
    (window : Int) (tcp_options : Option TcpOptions)
    (ignore_ts_val abs_ts_ecr abs_seq ignore_seq : Bool)
    (udp_src_port udp_dst_port : Nat) : Except BuildError Packet :=
  if ip_option_bytes % 4 ≠ 0 then
    Except.error (BuildError.unalignedIpOptions (ip_option_bytes % 4))
  else if tcpOptionBytesOf tcp_options % 4 ≠ 0 then
    Except.error (BuildError.unalignedOptions (tcpOptionBytesOf tcp_options % 4))
  else if MAX_TCP_HEADER_BYTES < tcpHeaderBytesOf tcp_options then
    Except.error BuildError.headerTooLarge
  else if MAX_TCP_DATAGRAM_BYTES <
      ipBytesOf address_family tcp_options tcp_payload_bytes
        udp_src_port udp_dst_port then
    Except.error BuildError.datagramTooLarge
  else
    match is_tcp_flags_spec_valid flags false false with
    | Except.error e => Except.error e
    | Except.ok _ =>
      if window = -1 ∧ direction = Direction.inbound then
        Except.error BuildError.windowRequired
      else
        Except.ok (buildPacket setIp address_family direction ecn flags
          start_sequence tcp_payload_bytes ack_sequence window tcp_options
          ignore_ts_val abs_ts_ecr abs_seq ignore_seq
          udp_src_port udp_dst_port)

/-- A string has a letter-based ECN flag character. -/
def hasEcnChar (s : List Char) : Prop := ∃ c, c ∈ s ∧ c ∈ ecnTcpFlags

/-- A string has a numeric ACE flag character. -/
def hasAceChar (s : List Char) : Prop := ∃ c, c ∈ s ∧ c ∈ aceTcpFlags

/-- Number of numeric ACE flag characters in a string. -/
def aceCount (s : List Char) : Nat :=
  s.countP (fun c => decide (c ∈ aceTcpFlags))

instance (s : List Char) : Decidable (hasEcnChar s) := by
  unfold hasEcnChar; infer_instance

instance (s : List Char) : Decidable (hasAceChar s) := by
  unfold hasAceChar; infer_instance

/-! ## Helper lemmas about the flag grammar -/

theorem hasEcnChar_cons {c : Char} {t : List Char} :
    hasEcnChar (c :: t) ↔ c ∈ ecnTcpFlags ∨ hasEcnChar t := by
  constructor
  · rintro ⟨x, hx, px⟩
    rcases List.mem_cons.mp hx with rfl | hx
    · exact Or.inl px
    · exact Or.inr ⟨x, hx, px⟩
  · rintro (h | ⟨x, hx, px⟩)
    · exact ⟨c, List.mem_cons_self c t, h⟩
    · exact ⟨x, List.mem_cons_of_mem c hx, px⟩

theorem hasAceChar_cons {c : Char} {t : List Char} :
    hasAceChar (c :: t) ↔ c ∈ aceTcpFlags ∨ hasAceChar t := by
  constructor
  · rintro ⟨x, hx, px⟩
    rcases List.mem_cons.mp hx with rfl | hx
    · exact Or.inl px
    · exact Or.inr ⟨x, hx, px⟩
  · rintro (h | ⟨x, hx, px⟩)
    · exact ⟨c, List.mem_cons_self c t, h⟩
    · exact ⟨x, List.mem_cons_of_mem c hx, px⟩

theorem not_hasEcnChar_nil : ¬ hasEcnChar [] := by
  rintro ⟨x, hx, _⟩; exact absurd hx (List.not_mem_nil x)

theorem not_hasAceChar_nil : ¬ hasAceChar [] := by
  rintro ⟨x, hx, _⟩; exact absurd hx (List.not_mem_nil x)

theorem aceCount_nil : aceCount [] = 0 := rfl

theorem aceCount_cons (c : Char) (t : List Char) :
    aceCount (c :: t) = aceCount t + (if c ∈ aceTcpFlags then 1 else 0) := by
  by_cases h : c ∈ aceTcpFlags <;>
    simp [aceCount, List.countP_cons, h]

theorem not_hasAce_of_aceCount_zero {s : List Char} (h : aceCount s = 0) :
    ¬ hasAceChar s := by
  rintro ⟨c, hc, hace⟩
  have := List.countP_eq_zero.mp h c hc
  simp only [decide_eq_true_eq] at this
  exact this hace

theorem hasAce_of_aceCount_pos {s : List Char} (h : 0 < aceCount s) :
    hasAceChar s := by
  obtain ⟨c, hc, hace⟩ := List.countP_pos_iff.mp h
  exact ⟨c, hc, of_decide_eq_true hace⟩

theorem not_ace_of_ecn {c : Char} (h : c ∈ ecnTcpFlags) : c ∉ aceTcpFlags := by
  simp only [ecnTcpFlags, List.mem_cons, List.not_mem_nil, or_false] at h
  rcases h with rfl | rfl | rfl <;> decide

theorem ecn_sub_valid {c : Char} (h : c ∈ ecnTcpFlags) : c ∈ validTcpFlags := by
  simp only [ecnTcpFlags, List.mem_cons, List.not_mem_nil, or_false] at h
  rcases h with rfl | rfl | rfl <;> decide

/-- Sufficient condition for the flag-grammar validator to accept,
generalized over the scanning state for the induction. -/
theorem valid_ok (s : List Char) : ∀ he ha : Bool,
    (∀ c ∈ s, c ∈ validTcpFlags) →
    (he = true → ¬ hasAceChar s) →
    (ha = true → ¬ hasEcnChar s ∧ ¬ hasAceChar s) →
    ¬(hasEcnChar s ∧ hasAceChar s) →
    aceCount s ≤ 1 →
    is_tcp_flags_spec_valid s he ha = Except.ok () := by
  induction s with
  | nil => intros; rfl
  | cons c t ih =>
    intro he ha hval hhe hha hconf hcount
    have hv : c ∈ validTcpFlags := hval c (List.mem_cons_self c t)
    have hvt : ∀ x ∈ t, x ∈ validTcpFlags :=
      fun x hx => hval x (List.mem_cons_of_mem c hx)
    by_cases hE : c ∈ ecnTcpFlags
    · have hcA : c ∉ aceTcpFlags := not_ace_of_ecn hE
      have hEcons : hasEcnChar (c :: t) := ⟨c, List.mem_cons_self c t, hE⟩
      have ha0 : ha = false := by
        cases ha with
        | false => rfl
        | true => exact absurd hEcons (hha rfl).1
      subst ha0
      have hAt : ¬ hasAceChar t := by
        intro hAt
        exact hconf ⟨hEcons, hasAceChar_cons.mpr (Or.inr hAt)⟩
      simp only [is_tcp_flags_spec_valid, if_neg (not_not_intro hv), if_pos hE,
        Bool.false_eq_true, if_neg, if_false]
      exact ih true false hvt (fun _ => hAt)
        (fun h => nomatch h)
        (fun ⟨_, a⟩ => hAt a)
        (by rw [aceCount_cons, if_neg hcA] at hcount; omega)
    · by_cases hA : c ∈ aceTcpFlags
      · have hAcons : hasAceChar (c :: t) := ⟨c, List.mem_cons_self c t, hA⟩
        have he0 : he = false := by
          cases he with
          | false => rfl
          | true => exact absurd hAcons (hhe rfl)
        have ha0 : ha = false := by
          cases ha with
          | false => rfl
          | true => exact absurd hAcons (hha rfl).2
        subst he0; subst ha0
        have hcount' : aceCount t = 0 := by
          rw [aceCount_cons, if_pos hA] at hcount; omega
        have hAt : ¬ hasAceChar t := not_hasAce_of_aceCount_zero hcount'
        have hEt : ¬ hasEcnChar t := by
          intro hEt
          exact hconf ⟨hasEcnChar_cons.mpr (Or.inr hEt), hAcons⟩
        simp only [is_tcp_flags_spec_valid, if_neg (not_not_intro hv),
          if_neg hE, if_pos hA, Bool.false_eq_true, if_neg, if_false,
          Bool.not_false, if_pos]
        exact ih false true hvt (fun h => nomatch h)
          (fun _ => ⟨hEt, hAt⟩)
          (fun ⟨_, a⟩ => hAt a)
          (by omega)
      · simp only [is_tcp_flags_spec_valid, if_neg (not_not_intro hv),
          if_neg hE, if_neg hA]
        exact ih he ha hvt
          (fun h hAt => hhe h (hasAceChar_cons.mpr (Or.inr hAt)))
          (fun h => ⟨fun hEt => (hha h).1 (hasEcnChar_cons.mpr (Or.inr hEt)),
                     fun hAt => (hha h).2 (hasAceChar_cons.mpr (Or.inr hAt))⟩)
          (fun ⟨e, a⟩ => hconf ⟨hasEcnChar_cons.mpr (Or.inr e),
                               hasAceChar_cons.mpr (Or.inr a)⟩)
          (by rw [aceCount_cons, if_neg hA] at hcount; omega)

/-- On a string over the allowed alphabet, a digit together with an ECN
letter, a second digit, or a digit/letter clashing with the incoming
scanning state, makes the validator stop with a conflicting-flag error. -/
theorem valid_conflict (s : List Char) : ∀ he ha : Bool,
    (∀ c ∈ s, c ∈ validTcpFlags) →
    ((he = true ∧ hasAceChar s) ∨
     (ha = true ∧ (hasEcnChar s ∨ hasAceChar s)) ∨
     (hasEcnChar s ∧ hasAceChar s) ∨
     2 ≤ aceCount s) →
    ∃ c ∈ s, is_tcp_flags_spec_valid s he ha =
      Except.error (BuildError.conflictingFlag c) := by
  induction s with
  | nil =>
    intro he ha _ hcond
    exfalso
    rcases hcond with ⟨_, h⟩ | ⟨_, h | h⟩ | ⟨h, _⟩ | h
    · exact not_hasAceChar_nil h
    · exact not_hasEcnChar_nil h
    · exact not_hasAceChar_nil h
    · exact not_hasEcnChar_nil h
    · simp [aceCount_nil] at h
  | cons c t ih =>
    intro he ha hval hcond
    have hv : c ∈ validTcpFlags := hval c (List.mem_cons_self c t)
    have hvt : ∀ x ∈ t, x ∈ validTcpFlags :=
      fun x hx => hval x (List.mem_cons_of_mem c hx)
    by_cases hE : c ∈ ecnTcpFlags
    · have hcA : c ∉ aceTcpFlags := not_ace_of_ecn hE
      cases ha with
      | true =>
        refine ⟨c, List.mem_cons_self c t, ?_⟩
        simp [is_tcp_flags_spec_valid, not_not_intro hv, hE]
      | false =>
        have hAt : hasAceChar t := by
          rcases hcond with ⟨_, h⟩ | ⟨h, _⟩ | ⟨_, h⟩ | h
          · exact (hasAceChar_cons.mp h).resolve_left hcA
          · exact absurd h (by simp)
          · exact (hasAceChar_cons.mp h).resolve_left hcA
          · refine hasAce_of_aceCount_pos ?_
            rw [aceCount_cons, if_neg hcA] at h; omega
        obtain ⟨x, hx, herr⟩ := ih true false hvt (Or.inl ⟨rfl, hAt⟩)
        refine ⟨x, List.mem_cons_of_mem c hx, ?_⟩
        simpa [is_tcp_flags_spec_valid, not_not_intro hv, hE] using herr
    · by_cases hA : c ∈ aceTcpFlags
      · cases he with
        | true =>
          refine ⟨c, List.mem_cons_self c t, ?_⟩
          simp [is_tcp_flags_spec_valid, not_not_intro hv, hE, hA]
        | false =>
          cases ha with
          | true =>
            refine ⟨c, List.mem_cons_self c t, ?_⟩
            simp [is_tcp_flags_spec_valid, not_not_intro hv, hE, hA]
          | false =>
            have hnext : hasEcnChar t ∨ hasAceChar t := by
              rcases hcond with ⟨h, _⟩ | ⟨h, _⟩ | ⟨h, _⟩ | h
              · exact absurd h (by simp)
              · exact absurd h (by simp)
              · exact Or.inl ((hasEcnChar_cons.mp h).resolve_left hE)
              · refine Or.inr (hasAce_of_aceCount_pos ?_)
                rw [aceCount_cons, if_pos hA] at h; omega
            obtain ⟨x, hx, herr⟩ := ih false true hvt (Or.inr (Or.inl ⟨rfl, hnext⟩))
            refine ⟨x, List.mem_cons_of_mem c hx, ?_⟩
            simpa [is_tcp_flags_spec_valid, not_not_intro hv, hE, hA] using herr
      · have hcond' : (he = true ∧ hasAceChar t) ∨
            (ha = true ∧ (hasEcnChar t ∨ hasAceChar t)) ∨
            (hasEcnChar t ∧ hasAceChar t) ∨ 2 ≤ aceCount t := by
          rcases hcond with ⟨h1, h2⟩ | ⟨h1, h2 | h2⟩ | ⟨h1, h2⟩ | h
          · exact Or.inl ⟨h1, (hasAceChar_cons.mp h2).resolve_left hA⟩
          · exact Or.inr (Or.inl ⟨h1, Or.inl ((hasEcnChar_cons.mp h2).resolve_left hE)⟩)
          · exact Or.inr (Or.inl ⟨h1, Or.inr ((hasAceChar_cons.mp h2).resolve_left hA)⟩)
          · exact Or.inr (Or.inr (Or.inl
              ⟨(hasEcnChar_cons.mp h1).resolve_left hE,
               (hasAceChar_cons.mp h2).resolve_left hA⟩))
          · refine Or.inr (Or.inr (Or.inr ?_))
            rw [aceCount_cons, if_neg hA] at h; omega
        obtain ⟨x, hx, herr⟩ := ih he ha hvt hcond'
        refine ⟨x, List.mem_cons_of_mem c hx, ?_⟩
        simpa [is_tcp_flags_spec_valid, not_not_intro hv, hE, hA] using herr

/-- Scanning an accepted prefix only advances the state: validation of an
extended string continues from some intermediate state. -/
theorem valid_append (t : List Char) : ∀ he ha : Bool,
    is_tcp_flags_spec_valid t he ha = Except.ok () →
    ∃ he' ha', ∀ r, is_tcp_flags_spec_valid (t ++ r) he ha =
      is_tcp_flags_spec_valid r he' ha' := by
  induction t with
  | nil => exact fun he ha _ => ⟨he, ha, fun r => rfl⟩
  | cons c t ih =>
    intro he ha hok
    by_cases hv : c ∈ validTcpFlags
    · by_cases hE : c ∈ ecnTcpFlags
      · cases ha with
        | true => simp [is_tcp_flags_spec_valid, not_not_intro hv, hE] at hok
        | false =>
          simp only [is_tcp_flags_spec_valid, if_neg (not_not_intro hv),
            if_pos hE, Bool.false_eq_true, if_false] at hok
          obtain ⟨he', ha', hrec⟩ := ih true false hok
          refine ⟨he', ha', fun r => ?_⟩
          simp only [List.cons_append, is_tcp_flags_spec_valid,
            if_neg (not_not_intro hv), if_pos hE, Bool.false_eq_true, if_false]
          exact hrec r
      · by_cases hA : c ∈ aceTcpFlags
        · cases he with
          | true =>
            simp [is_tcp_flags_spec_valid, not_not_intro hv, hE, hA] at hok
          | false =>
            cases ha with
            | true =>
              simp [is_tcp_flags_spec_valid, not_not_intro hv, hE, hA] at hok
            | false =>
              simp only [is_tcp_flags_spec_valid, if_neg (not_not_intro hv),
                if_neg hE, if_pos hA, Bool.false_eq_true, if_false,
                Bool.not_false, if_true] at hok
              obtain ⟨he', ha', hrec⟩ := ih false true hok
              refine ⟨he', ha', fun r => ?_⟩
              simp only [List.cons_append, is_tcp_flags_spec_valid,
                if_neg (not_not_intro hv), if_neg hE, if_pos hA,
                Bool.false_eq_true, if_false, Bool.not_false, if_true]
              exact hrec r
        · simp only [is_tcp_flags_spec_valid, if_neg (not_not_intro hv),
            if_neg hE, if_neg hA] at hok
          obtain ⟨he', ha', hrec⟩ := ih he ha hok
          refine ⟨he', ha', fun r => ?_⟩
          simp only [List.cons_append, is_tcp_flags_spec_valid,
            if_neg (not_not_intro hv), if_neg hE, if_neg hA]
          exact hrec r
    · simp [is_tcp_flags_spec_valid, hv] at hok

/-- The value found by tcp_flag_ace_count when the string holds exactly one
numeric flag: the value of that digit. -/
theorem tcp_flag_ace_count_of_unique : ∀ (s : List Char) (d : Char),
    aceCount s = 1 → d ∈ s → d ∈ aceTcpFlags →
    tcp_flag_ace_count s = d.toNat - '0'.toNat := by
  intro s
  induction s with
  | nil => intro d _ hd _; exact absurd hd (List.not_mem_nil d)
  | cons c t ih =>
    intro d hcount hd hdAce
    by_cases hc : c ∈ aceTcpFlags
    · have ht0 : aceCount t = 0 := by
        rw [aceCount_cons, if_pos hc] at hcount; omega
      have hdc : d = c := by
        rcases List.mem_cons.mp hd with rfl | hdt
        · rfl
        · exact absurd ⟨d, hdt, hdAce⟩ (not_hasAce_of_aceCount_zero ht0)
      subst hdc
      simp [tcp_flag_ace_count, hc]
    · have hdt : d ∈ t := by
        rcases List.mem_cons.mp hd with rfl | hdt
        · exact absurd hdAce hc
        · exact hdt
      have hcount' : aceCount t = 1 := by
        rw [aceCount_cons, if_neg hc] at hcount; omega
      simp only [tcp_flag_ace_count, if_neg hc]
      exact ih d hcount' hdt hdAce

/-- tcp_flag_ace_count is 0 on a string without numeric flags. -/
theorem tcp_flag_ace_count_of_none : ∀ s : List Char,
    ¬ hasAceChar s → tcp_flag_ace_count s = 0 := by
  intro s
  induction s with
  | nil => intro _; rfl
  | cons c t ih =>
    intro h
    have hc : c ∉ aceTcpFlags :=
      fun hc => h ⟨c, List.mem_cons_self c t, hc⟩
    simp only [tcp_flag_ace_count, if_neg hc]
    exact ih (fun ⟨x, hx, px⟩ => h ⟨x, List.mem_cons_of_mem c hx, px⟩)

/-! ## Helper lemmas about new_tcp_packet -/

theorem new_tcp_packet_eq_error_unaligned (setIp : IpWriter)
    (address_family : AddressFamily) (direction : Direction) (ecn : Nat)
    (flags : List Char) (start_sequence tcp_payload_bytes ack_sequence : Nat)
    (window : Int) (tcp_options : Option TcpOptions)
    (ignore_ts_val abs_ts_ecr abs_seq ignore_seq : Bool)
    (udp_src_port udp_dst_port : Nat)
    (h : tcpOptionBytesOf tcp_options % 4 ≠ 0) :
    new_tcp_packet setIp address_family direction ecn flags start_sequence
      tcp_payload_bytes ack_sequence window tcp_options ignore_ts_val
      abs_ts_ecr abs_seq ignore_seq udp_src_port udp_dst_port =
    Except.error (BuildError.unalignedOptions (tcpOptionBytesOf tcp_options % 4)) := by
  unfold new_tcp_packet
  rw [if_neg (by decide)]
  exact if_pos h

theorem new_tcp_packet_eq_error_toolarge (setIp : IpWriter)
    (address_family : AddressFamily) (direction : Direction) (ecn : Nat)
    (flags : List Char) (start_sequence tcp_payload_bytes ack_sequence : Nat)
    (window : Int) (tcp_options : Option TcpOptions)
    (ignore_ts_val abs_ts_ecr abs_seq ignore_seq : Bool)
    (udp_src_port udp_dst_port : Nat)
    (h2 : tcpOptionBytesOf tcp_options % 4 = 0)
    (h3 : MAX_TCP_HEADER_BYTES < tcpHeaderBytesOf tcp_options) :
    new_tcp_packet setIp address_family direction ecn flags start_sequence
      tcp_payload_bytes ack_sequence window tcp_options ignore_ts_val
      abs_ts_ecr abs_seq ignore_seq udp_src_port udp_dst_port =
    Except.error BuildError.headerTooLarge := by
  unfold new_tcp_packet
  rw [if_neg (by decide), if_neg (fun hc => hc h2)]
  exact if_pos h3

theorem new_tcp_packet_eq_ok (setIp : IpWriter)
    (address_family : AddressFamily) (direction : Direction) (ecn : Nat)
    (flags : List Char) (start_sequence tcp_payload_bytes ack_sequence : Nat)
    (window : Int) (tcp_options : Option TcpOptions)
    (ignore_ts_val abs_ts_ecr abs_seq ignore_seq : Bool)
    (udp_src_port udp_dst_port : Nat)
    (h2 : tcpOptionBytesOf tcp_options % 4 = 0)
    (h3 : tcpHeaderBytesOf tcp_options ≤ MAX_TCP_HEADER_BYTES)
    (h4 : ipBytesOf address_family tcp_options tcp_payload_bytes
      udp_src_port udp_dst_port ≤ MAX_TCP_DATAGRAM_BYTES)
    (h5 : is_tcp_flags_spec_valid flags false false = Except.ok ())
    (h6 : ¬(window = -1 ∧ direction = Direction.inbound)) :
    new_tcp_packet setIp address_family direction ecn flags start_sequence
      tcp_payload_bytes ack_sequence window tcp_options ignore_ts_val
      abs_ts_ecr abs_seq ignore_seq udp_src_port udp_dst_port =
    Except.ok (buildPacket setIp address_family direction ecn flags
      start_sequence tcp_payload_bytes ack_sequence window tcp_options
      ignore_ts_val abs_ts_ecr abs_seq ignore_seq
      udp_src_port udp_dst_port) := by
  unfold new_tcp_packet
  rw [if_neg (by decide), if_neg (fun hc => hc h2),
    if_neg (Nat.not_lt.mpr h3), if_neg (Nat.not_lt.mpr h4), h5]
  exact if_neg h6

theorem new_tcp_packet_eq_error_window (setIp : IpWriter)
    (address_family : AddressFamily) (ecn : Nat)
    (flags : List Char) (start_sequence tcp_payload_bytes ack_sequence : Nat)
    (tcp_options : Option TcpOptions)
    (ignore_ts_val abs_ts_ecr abs_seq ignore_seq : Bool)
    (udp_src_port udp_dst_port : Nat)
    (h2 : tcpOptionBytesOf tcp_options % 4 = 0)
    (h3 : tcpHeaderBytesOf tcp_options ≤ MAX_TCP_HEADER_BYTES)
    (h4 : ipBytesOf address_family tcp_options tcp_payload_bytes
      udp_src_port udp_dst_port ≤ MAX_TCP_DATAGRAM_BYTES)
    (h5 : is_tcp_flags_spec_valid flags false false = Except.ok ()) :
    new_tcp_packet setIp address_family Direction.inbound ecn flags
      start_sequence tcp_payload_bytes ack_sequence (-1) tcp_options
      ignore_ts_val abs_ts_ecr abs_seq ignore_seq udp_src_port udp_dst_port =
    Except.error BuildError.windowRequired := by
  unfold new_tcp_packet
  rw [if_neg (by decide), if_neg (fun hc => hc h2),
    if_neg (Nat.not_lt.mpr h3), if_neg (Nat.not_lt.mpr h4), h5]
  exact if_pos ⟨rfl, rfl⟩

theorem new_tcp_packet_ok_inv (setIp : IpWriter)
    (address_family : AddressFamily) (direction : Direction) (ecn : Nat)
    (flags : List Char) (start_sequence tcp_payload_bytes ack_sequence : Nat)
    (window : Int) (tcp_options : Option TcpOptions)
    (ignore_ts_val abs_ts_ecr abs_seq ignore_seq : Bool)
    (udp_src_port udp_dst_port : Nat) (p : Packet)
    (h : new_tcp_packet setIp address_family direction ecn flags
      start_sequence tcp_payload_bytes ack_sequence window tcp_options
      ignore_ts_val abs_ts_ecr abs_seq ignore_seq
      udp_src_port udp_dst_port = Except.ok p) :
    p = buildPacket setIp address_family direction ecn flags start_sequence
      tcp_payload_bytes ack_sequence window tcp_options ignore_ts_val
      abs_ts_ecr abs_seq ignore_seq udp_src_port udp_dst_port := by
  unfold new_tcp_packet at h
  repeat' split at h
  all_goals first
  | exact Except.noConfusion h
  | (injection h with h; exact h.symm)

/-! ## Helper lemmas about buffer layout -/

theorem length_padTake (n : Nat) (xs : List Nat) :
    (padTake n xs).length = n := by
  simp only [padTake, List.length_append, List.length_take,
    List.length_replicate]
  omega

theorem length_serializeTcp (t : TcpHdr) : (serializeTcp t).length = 20 := by
  simp [serializeTcp, be16, be32]

theorem length_optBytesOf (o : Option TcpOptions) :
    (optBytesOf o).length = tcpOptionBytesOf o := by
  cases o with
  | none => rfl
  | some o =>
    simp only [optBytesOf, tcpOptionBytesOf, List.length_take,
      List.length_append, List.length_replicate]
    omega

theorem drop_len_append (A B : List Nat) (n : Nat) (h : A.length = n) :
    (A ++ B).drop n = B := by
  subst h; simp

theorem take_len_append (A B : List Nat) (n : Nat) (h : A.length = n) :
    (A ++ B).take n = A := by
  subst h; simp

/-! ## Claims -/

/-- C1: with the window sentinel -1, an inbound direction makes
new_tcp_packet fail with the WindowRequired error and return no packet,
while an outbound direction (with otherwise valid inputs) succeeds with a
TCP window field of 0 and the FLAG_WIN_NOCHECK hint set. -/
theorem claim_C1 (setIp : IpWriter) (address_family : AddressFamily)
    (ecn : Nat) (flags : List Char)
    (start_sequence tcp_payload_bytes ack_sequence : Nat)
    (tcp_options : Option TcpOptions)
    (ignore_ts_val abs_ts_ecr abs_seq ignore_seq : Bool)
    (udp_src_port udp_dst_port : Nat)
    (h2 : tcpOptionBytesOf tcp_options % 4 = 0)
    (h3 : tcpHeaderBytesOf tcp_options ≤ MAX_TCP_HEADER_BYTES)
    (h4 : ipBytesOf address_family tcp_options tcp_payload_bytes
      udp_src_port udp_dst_port ≤ MAX_TCP_DATAGRAM_BYTES)
    (h5 : is_tcp_flags_spec_valid flags false false = Except.ok ()) :
    (new_tcp_packet setIp address_family Direction.inbound ecn flags
      start_sequence tcp_payload_bytes ack_sequence (-1) tcp_options
      ignore_ts_val abs_ts_ecr abs_seq ignore_seq udp_src_port udp_dst_port =
      Except.error BuildError.windowRequired) ∧
    (∃ p, new_tcp_packet setIp address_family Direction.outbound ecn flags
      start_sequence tcp_payload_bytes ack_sequence (-1) tcp_options
      ignore_ts_val abs_ts_ecr abs_seq ignore_seq udp_src_port udp_dst_port =
      Except.ok p ∧ p.tcp.window = 0 ∧ p.flags &&& FLAG_WIN_NOCHECK ≠ 0) := by
  constructor
  · exact new_tcp_packet_eq_error_window setIp address_family ecn flags
      start_sequence tcp_payload_bytes ack_sequence tcp_options
      ignore_ts_val abs_ts_ecr abs_seq ignore_seq udp_src_port udp_dst_port
      h2 h3 h4 h5
  · refine ⟨_, new_tcp_packet_eq_ok setIp address_family Direction.outbound
      ecn flags start_sequence tcp_payload_bytes ack_sequence (-1) tcp_options
      ignore_ts_val abs_ts_ecr abs_seq ignore_seq udp_src_port udp_dst_port
      h2 h3 h4 h5 (fun hc => Direction.noConfusion hc.2), ?_, ?_⟩
    · simp [buildPacket]
    · simp only [buildPacket, FLAG_WIN_NOCHECK, FLAGS_UDP_ENCAPSULATED,
        FLAG_OPTIONS_NOCHECK, FLAG_IGNORE_TS_VAL, FLAG_ABSOLUTE_TS_ECR,
        FLAG_ABSOLUTE_SEQ, FLAG_IGNORE_SEQ, reduceIte]
      repeat' split
      all_goals decide

/-- Witness for C1 at a concrete SYN packet. -/
theorem claim_C1_witness :
    (new_tcp_packet zeroIpWriter AddressFamily.afInet Direction.inbound 0
      ['S'] 1 0 0 (-1) none false false false false 0 0 =
      Except.error BuildError.windowRequired) ∧
    (∃ p, new_tcp_packet zeroIpWriter AddressFamily.afInet Direction.outbound 0
      ['S'] 1 0 0 (-1) none false false false false 0 0 =
      Except.ok p ∧ p.tcp.window = 0 ∧ p.flags &&& FLAG_WIN_NOCHECK ≠ 0) :=
  claim_C1 zeroIpWriter AddressFamily.afInet 0 ['S'] 1 0 0 none
    false false false false 0 0 (by decide) (by decide) (by decide) rfl

/-- C10: for every window value other than the sentinel -1 (other negative
values included), the builder does not fail on account of the window: with
otherwise valid inputs it succeeds, the TCP window field is the window
value mod 2^16, and the FLAG_WIN_NOCHECK hint is not set. -/
theorem claim_C10 (setIp : IpWriter) (address_family : AddressFamily)
    (direction : Direction) (ecn : Nat) (flags : List Char)
    (start_sequence tcp_payload_bytes ack_sequence : Nat) (window : Int)
    (tcp_options : Option TcpOptions)
    (ignore_ts_val abs_ts_ecr abs_seq ignore_seq : Bool)
    (udp_src_port udp_dst_port : Nat)
    (hw : window ≠ -1)
    (h2 : tcpOptionBytesOf tcp_options % 4 = 0)
    (h3 : tcpHeaderBytesOf tcp_options ≤ MAX_TCP_HEADER_BYTES)
    (h4 : ipBytesOf address_family tcp_options tcp_payload_bytes
      udp_src_port udp_dst_port ≤ MAX_TCP_DATAGRAM_BYTES)
    (h5 : is_tcp_flags_spec_valid flags false false = Except.ok ()) :
    ∃ p, new_tcp_packet setIp address_family direction ecn flags
      start_sequence tcp_payload_bytes ack_sequence window tcp_options
      ignore_ts_val abs_ts_ecr abs_seq ignore_seq udp_src_port udp_dst_port =
      Except.ok p ∧ p.tcp.window = (window % 65536).toNat ∧
      p.flags &&& FLAG_WIN_NOCHECK = 0 := by
  refine ⟨_, new_tcp_packet_eq_ok setIp address_family direction ecn flags
    start_sequence tcp_payload_bytes ack_sequence window tcp_options
    ignore_ts_val abs_ts_ecr abs_seq ignore_seq udp_src_port udp_dst_port
    h2 h3 h4 h5 (fun hc => hw hc.1), ?_, ?_⟩
  · simp [buildPacket, if_neg hw]
  · simp only [buildPacket, FLAG_WIN_NOCHECK, FLAGS_UDP_ENCAPSULATED,
      FLAG_OPTIONS_NOCHECK, FLAG_IGNORE_TS_VAL, FLAG_ABSOLUTE_TS_ECR,
      FLAG_ABSOLUTE_SEQ, FLAG_IGNORE_SEQ, if_neg hw]
    repeat' split
    all_goals decide

/-- Witness for C10 at the non-sentinel negative window -2. -/
theorem claim_C10_witness :
    ∃ p, new_tcp_packet zeroIpWriter AddressFamily.afInet Direction.outbound 0
      ['.'] 1 0 0 (-2) none false false false false 0 0 =
      Except.ok p ∧ p.tcp.window = ((-2 : Int) % 65536).toNat ∧
      p.flags &&& FLAG_WIN_NOCHECK = 0 :=
  claim_C10 zeroIpWriter AddressFamily.afInet Direction.outbound 0 ['.']
    1 0 0 (-2) none false false false false 0 0
    (by decide) (by decide) (by decide) (by decide) rfl

/-- C2: a flag spec over the allowed alphabet with exactly one digit and no
ECN letter validates successfully, and a packet built from it carries the
3-bit value of that digit in ECE (bit 0), CWR (bit 1) and AE (bit 2); with
no digit present, ECE/CWR/AE come from the presence of the letters
E/W/A. -/
theorem claim_C2 (flags : List Char)
    (hval : ∀ c ∈ flags, c ∈ validTcpFlags) :
    ((∀ c ∈ flags, c ∉ ecnTcpFlags) → ∀ d ∈ flags, d ∈ aceTcpFlags →
      aceCount flags = 1 →
      is_tcp_flags_spec_valid flags false false = Except.ok () ∧
      ∀ setIp address_family direction ecn start_sequence tcp_payload_bytes
        ack_sequence window tcp_options ignore_ts_val abs_ts_ecr abs_seq
        ignore_seq udp_src_port udp_dst_port p,
        new_tcp_packet setIp address_family direction ecn flags
          start_sequence tcp_payload_bytes ack_sequence window tcp_options
          ignore_ts_val abs_ts_ecr abs_seq ignore_seq
          udp_src_port udp_dst_port = Except.ok p →
        p.tcp.ece = (d.toNat - '0'.toNat).testBit 0 ∧
        p.tcp.cwr = (d.toNat - '0'.toNat).testBit 1 ∧
        p.tcp.ae = (d.toNat - '0'.toNat).testBit 2) ∧
    (aceCount flags = 0 →
      ∀ setIp address_family direction ecn start_sequence tcp_payload_bytes
        ack_sequence window tcp_options ignore_ts_val abs_ts_ecr abs_seq
        ignore_seq udp_src_port udp_dst_port p,
        new_tcp_packet setIp address_family direction ecn flags
          start_sequence tcp_payload_bytes ack_sequence window tcp_options
          ignore_ts_val abs_ts_ecr abs_seq ignore_seq
          udp_src_port udp_dst_port = Except.ok p →
        ((p.tcp.ece = true ↔ 'E' ∈ flags) ∧
         (p.tcp.cwr = true ↔ 'W' ∈ flags) ∧
         (p.tcp.ae = true ↔ 'A' ∈ flags))) := by
  constructor
  · intro hnoE d hd hdA hone
    have hE' : 'E' ∉ flags := fun h => hnoE 'E' h (by decide)
    have hW' : 'W' ∉ flags := fun h => hnoE 'W' h (by decide)
    have hA' : 'A' ∉ flags := fun h => hnoE 'A' h (by decide)
    constructor
    · refine valid_ok flags false false hval (fun h => nomatch h)
        (fun h => nomatch h) ?_ (by omega)
      rintro ⟨⟨c, hc, hce⟩, _⟩
      exact hnoE c hc hce
    · intro setIp address_family direction ecn start_sequence
        tcp_payload_bytes ack_sequence window tcp_options ignore_ts_val
        abs_ts_ecr abs_seq ignore_seq udp_src_port udp_dst_port p hok
      have hp := new_tcp_packet_ok_inv setIp address_family direction ecn
        flags start_sequence tcp_payload_bytes ack_sequence window
        tcp_options ignore_ts_val abs_ts_ecr abs_seq ignore_seq
        udp_src_port udp_dst_port p hok
      subst hp
      have hace : tcp_flag_ace_count flags = d.toNat - '0'.toNat :=
        tcp_flag_ace_count_of_unique flags d hone hd hdA
      simp only [buildPacket]
      rw [hace]
      simp only [aceTcpFlags, List.mem_cons, List.not_mem_nil, or_false] at hdA
      rcases hdA with rfl | rfl | rfl | rfl | rfl | rfl | rfl | rfl <;>
        simp +decide [is_tcp_flag_set, hE', hW', hA']
  · intro h0 setIp address_family direction ecn start_sequence
      tcp_payload_bytes ack_sequence window tcp_options ignore_ts_val
      abs_ts_ecr abs_seq ignore_seq udp_src_port udp_dst_port p hok
    have hp := new_tcp_packet_ok_inv setIp address_family direction ecn
      flags start_sequence tcp_payload_bytes ack_sequence window
      tcp_options ignore_ts_val abs_ts_ecr abs_seq ignore_seq
      udp_src_port udp_dst_port p hok
    subst hp
    have hace0 : tcp_flag_ace_count flags = 0 :=
      tcp_flag_ace_count_of_none flags (not_hasAce_of_aceCount_zero h0)
    simp only [buildPacket]
    rw [hace0]
    simp [is_tcp_flag_set]

/-- Witness for C2: the spec ".5" validates and decodes digit 5 to
ECE=1, CWR=0, AE=1; the letter spec "EW" sets ECE and CWR and not AE. -/
theorem claim_C2_witness :
    (is_tcp_flags_spec_valid ['.', '5'] false false = Except.ok () ∧
     ((buildPacket zeroIpWriter AddressFamily.afInet Direction.outbound 0
        ['.', '5'] 1 0 0 100 none false false false false 0 0).tcp.ece =
          ('5'.toNat - '0'.toNat).testBit 0 ∧
      (buildPacket zeroIpWriter AddressFamily.afInet Direction.outbound 0
        ['.', '5'] 1 0 0 100 none false false false false 0 0).tcp.cwr =
          ('5'.toNat - '0'.toNat).testBit 1 ∧
      (buildPacket zeroIpWriter AddressFamily.afInet Direction.outbound 0
        ['.', '5'] 1 0 0 100 none false false false false 0 0).tcp.ae =
          ('5'.toNat - '0'.toNat).testBit 2)) ∧
    (((buildPacket zeroIpWriter AddressFamily.afInet Direction.outbound 0
        ['E', 'W'] 1 0 0 100 none false false false false 0 0).tcp.ece =
          true ↔ 'E' ∈ ['E', 'W']) ∧
     ((buildPacket zeroIpWriter AddressFamily.afInet Direction.outbound 0
        ['E', 'W'] 1 0 0 100 none false false false false 0 0).tcp.cwr =
          true ↔ 'W' ∈ ['E', 'W']) ∧
     ((buildPacket zeroIpWriter AddressFamily.afInet Direction.outbound 0
        ['E', 'W'] 1 0 0 100 none false false false false 0 0).tcp.ae =
          true ↔ 'A' ∈ ['E', 'W'])) := by
  have h1 := (claim_C2 ['.', '5'] (by decide)).1 (by decide) '5' (by decide)
    (by decide) (by decide)
  have h2 := (claim_C2 ['E', 'W'] (by decide)).2 (by decide)
    zeroIpWriter AddressFamily.afInet Direction.outbound 0 1 0 0 100 none
    false false false false 0 0 _ rfl
  exact ⟨⟨h1.1, h1.2 zeroIpWriter AddressFamily.afInet Direction.outbound 0
    1 0 0 100 none false false false false 0 0 _ rfl⟩, h2⟩

/-- C3: on a flag spec over the allowed alphabet, a digit together with a
letter-based ECN flag, in either order, or two or more digits, makes
validation fail with a ConflictingFlag error naming an offending
character of the spec. -/
theorem claim_C3 (flags : List Char)
    (hval : ∀ c ∈ flags, c ∈ validTcpFlags)
    (h : (hasEcnChar flags ∧ hasAceChar flags) ∨ 2 ≤ aceCount flags) :
    ∃ c ∈ flags, is_tcp_flags_spec_valid flags false false =
      Except.error (BuildError.conflictingFlag c) :=
  valid_conflict flags false false hval
    (h.elim (fun h => Or.inr (Or.inr (Or.inl h)))
            (fun h => Or.inr (Or.inr (Or.inr h))))

/-- Witness for C3 on "E5", "5E" and "53". -/
theorem claim_C3_witness :
    (∃ c ∈ ['E', '5'], is_tcp_flags_spec_valid ['E', '5'] false false =
      Except.error (BuildError.conflictingFlag c)) ∧
    (∃ c ∈ ['5', 'E'], is_tcp_flags_spec_valid ['5', 'E'] false false =
      Except.error (BuildError.conflictingFlag c)) ∧
    (∃ c ∈ ['5', '3'], is_tcp_flags_spec_valid ['5', '3'] false false =
      Except.error (BuildError.conflictingFlag c)) :=
  ⟨claim_C3 ['E', '5'] (by decide) (Or.inl (by decide)),
   claim_C3 ['5', 'E'] (by decide) (Or.inl (by decide)),
   claim_C3 ['5', '3'] (by decide) (Or.inr (by decide))⟩

/-- Counterexample to C4 as stated: the string "E5" consists only of
characters of the allowed alphabet, yet validation does not succeed (it
fails with a ConflictingFlag error). -/
theorem claim_C4_counterexample :
    (∀ c ∈ ['E', '5'], c ∈ validTcpFlags) ∧
    is_tcp_flags_spec_valid ['E', '5'] false false =
      Except.error (BuildError.conflictingFlag '5') :=
  ⟨by decide, rfl⟩

/-- C4 (amended): a flag spec over the allowed alphabet validates
successfully provided it is also conflict-free (no digit together with an
ECN letter and at most one digit); and a spec containing a character
outside the alphabet fails with InvalidFlag naming that character,
provided the prefix before it validates cleanly (otherwise an earlier
conflicting-flag error is reported instead). -/
theorem claim_C4 (s : List Char) :
    ((∀ c ∈ s, c ∈ validTcpFlags) → ¬(hasEcnChar s ∧ hasAceChar s) →
      aceCount s ≤ 1 →
      is_tcp_flags_spec_valid s false false = Except.ok ()) ∧
    (∀ t c u, s = t ++ c :: u → c ∉ validTcpFlags →
      is_tcp_flags_spec_valid t false false = Except.ok () →
      is_tcp_flags_spec_valid s false false =
        Except.error (BuildError.invalidFlag c)) := by
  constructor
  · intro hval hconf hcount
    exact valid_ok s false false hval (fun h => nomatch h)
      (fun h => nomatch h) hconf hcount
  · intro t c u hs hc hok
    subst hs
    obtain ⟨he', ha', hrec⟩ := valid_append t false false hok
    rw [hrec (c :: u)]
    simp [is_tcp_flags_spec_valid, hc]

/-- Witness for C4 (amended): "F." validates; "SZ" fails with InvalidFlag
at the character Z. -/
theorem claim_C4_witness :
    is_tcp_flags_spec_valid ['F', '.'] false false = Except.ok () ∧
    is_tcp_flags_spec_valid ['S', 'Z'] false false =
      Except.error (BuildError.invalidFlag 'Z') :=
  ⟨(claim_C4 ['F', '.']).1 (by decide) (by decide) (by decide),
   (claim_C4 ['S', 'Z']).2 ['S'] 'Z' [] rfl (by decide) rfl⟩

/-- Counterexample to C5 as stated: with the invalid flag spec "Z" and
2-byte (unaligned) TCP options, new_tcp_packet returns the layout error
UnalignedOptions, not the flag-validation error. -/
theorem claim_C5_counterexample :
    new_tcp_packet zeroIpWriter AddressFamily.afInet Direction.outbound 0
      ['Z'] 0 0 0 100 (some ⟨2, [0, 0]⟩) false false false false 0 0 =
      Except.error (BuildError.unalignedOptions 2) ∧
    is_tcp_flags_spec_valid ['Z'] false false =
      Except.error (BuildError.invalidFlag 'Z') :=
  ⟨rfl, rfl⟩

/-- C5 (amended): the Assembler runs the Layout Calculator before the Flag
Grammar Validator: for every input whose flag spec is invalid and whose
layout is also invalid, new_tcp_packet returns the layout error
(UnalignedOptions when the option bytes are unaligned, HeaderTooLarge when
they are aligned but push the header over the ceiling), not the
flag-validation error. -/
theorem claim_C5 (setIp : IpWriter) (address_family : AddressFamily)
    (direction : Direction) (ecn : Nat) (flags : List Char)
    (start_sequence tcp_payload_bytes ack_sequence : Nat) (window : Int)
    (tcp_options : Option TcpOptions)
    (ignore_ts_val abs_ts_ecr abs_seq ignore_seq : Bool)
    (udp_src_port udp_dst_port : Nat) (e : BuildError)
    (hflag : is_tcp_flags_spec_valid flags false false = Except.error e) :
    (tcpOptionBytesOf tcp_options % 4 ≠ 0 →
      new_tcp_packet setIp address_family direction ecn flags start_sequence
        tcp_payload_bytes ack_sequence window tcp_options ignore_ts_val
        abs_ts_ecr abs_seq ignore_seq udp_src_port udp_dst_port =
      Except.error (BuildError.unalignedOptions
        (tcpOptionBytesOf tcp_options % 4))) ∧
    (tcpOptionBytesOf tcp_options % 4 = 0 →
      MAX_TCP_HEADER_BYTES < tcpHeaderBytesOf tcp_options →
      new_tcp_packet setIp address_family direction ecn flags start_sequence
        tcp_payload_bytes ack_sequence window tcp_options ignore_ts_val
        abs_ts_ecr abs_seq ignore_seq udp_src_port udp_dst_port =
      Except.error BuildError.headerTooLarge) :=
  ⟨fun h => new_tcp_packet_eq_error_unaligned setIp address_family direction
      ecn flags start_sequence tcp_payload_bytes ack_sequence window
      tcp_options ignore_ts_val abs_ts_ecr abs_seq ignore_seq
      udp_src_port udp_dst_port h,
   fun h2 h3 => new_tcp_packet_eq_error_toolarge setIp address_family
      direction ecn flags start_sequence tcp_payload_bytes ack_sequence
      window tcp_options ignore_ts_val abs_ts_ecr abs_seq ignore_seq
      udp_src_port udp_dst_port h2 h3⟩

/-- Witness for C5 (amended) at the invalid flag spec "Z" with unaligned
2-byte options and with aligned 44-byte options. -/
theorem claim_C5_witness :
    new_tcp_packet zeroIpWriter AddressFamily.afInet Direction.outbound 0
      ['Z'] 0 0 0 100 (some ⟨2, [0, 0]⟩) false false false false 0 0 =
      Except.error (BuildError.unalignedOptions
        (tcpOptionBytesOf (some ⟨2, [0, 0]⟩) % 4)) ∧
    new_tcp_packet zeroIpWriter AddressFamily.afInet Direction.outbound 0
      ['Z'] 0 0 0 100 (some ⟨44, []⟩) false false false false 0 0 =
      Except.error BuildError.headerTooLarge :=
  ⟨(claim_C5 zeroIpWriter AddressFamily.afInet Direction.outbound 0 ['Z']
      0 0 0 100 (some ⟨2, [0, 0]⟩) false false false false 0 0
      (BuildError.invalidFlag 'Z') rfl).1 (by decide),
   (claim_C5 zeroIpWriter AddressFamily.afInet Direction.outbound 0 ['Z']
      0 0 0 100 (some ⟨44, []⟩) false false false false 0 0
      (BuildError.invalidFlag 'Z') rfl).2 (by decide) (by decide)⟩

/-- C6: TCP options whose length is not a multiple of 4 always make
new_tcp_packet fail with the UnalignedOptions error carrying the excess
byte count, regardless of all other inputs. -/
theorem claim_C6 (setIp : IpWriter) (address_family : AddressFamily)
    (direction : Direction) (ecn : Nat) (flags : List Char)
    (start_sequence tcp_payload_bytes ack_sequence : Nat) (window : Int)
    (o : TcpOptions) (ignore_ts_val abs_ts_ecr abs_seq ignore_seq : Bool)
    (udp_src_port udp_dst_port : Nat)
    (h : o.length % 4 ≠ 0) :
    new_tcp_packet setIp address_family direction ecn flags start_sequence
      tcp_payload_bytes ack_sequence window (some o) ignore_ts_val
      abs_ts_ecr abs_seq ignore_seq udp_src_port udp_dst_port =
    Except.error (BuildError.unalignedOptions (o.length % 4)) :=
  new_tcp_packet_eq_error_unaligned setIp address_family direction ecn flags
    start_sequence tcp_payload_bytes ack_sequence window (some o)
    ignore_ts_val abs_ts_ecr abs_seq ignore_seq udp_src_port udp_dst_port h

/-- Witness for C6 at option lengths 1, 2 and 3 mod 4. -/
theorem claim_C6_witness :
    (new_tcp_packet zeroIpWriter AddressFamily.afInet Direction.outbound 0
      ['S'] 0 0 0 100 (some ⟨5, []⟩) false false false false 0 0 =
      Except.error (BuildError.unalignedOptions 1)) ∧
    (new_tcp_packet zeroIpWriter AddressFamily.afInet Direction.outbound 0
      ['S'] 0 0 0 100 (some ⟨2, [0, 0]⟩) false false false false 0 0 =
      Except.error (BuildError.unalignedOptions 2)) ∧
    (new_tcp_packet zeroIpWriter AddressFamily.afInet6 Direction.inbound 7
      ['F'] 9 9 9 (-1) (some ⟨7, []⟩) true true true true 1 2 =
      Except.error (BuildError.unalignedOptions 3)) :=
  ⟨claim_C6 zeroIpWriter AddressFamily.afInet Direction.outbound 0 ['S']
      0 0 0 100 ⟨5, []⟩ false false false false 0 0 (by decide),
   claim_C6 zeroIpWriter AddressFamily.afInet Direction.outbound 0 ['S']
      0 0 0 100 ⟨2, [0, 0]⟩ false false false false 0 0 (by decide),
   claim_C6 zeroIpWriter AddressFamily.afInet6 Direction.inbound 7 ['F']
      9 9 9 (-1) ⟨7, []⟩ true true true true 1 2 (by decide)⟩

/-- C7: with aligned options, a TCP header strictly over
MAX_TCP_HEADER_BYTES makes new_tcp_packet fail with HeaderTooLarge, while
a header of exactly MAX_TCP_HEADER_BYTES (with the other constraints
holding) builds successfully. -/
theorem claim_C7 (setIp : IpWriter) (address_family : AddressFamily)
    (direction : Direction) (ecn : Nat) (flags : List Char)
    (start_sequence tcp_payload_bytes ack_sequence : Nat) (window : Int)
    (tcp_options : Option TcpOptions)
    (ignore_ts_val abs_ts_ecr abs_seq ignore_seq : Bool)
    (udp_src_port udp_dst_port : Nat)
    (h2 : tcpOptionBytesOf tcp_options % 4 = 0) :
    (MAX_TCP_HEADER_BYTES < tcpHeaderBytesOf tcp_options →
      new_tcp_packet setIp address_family direction ecn flags start_sequence
        tcp_payload_bytes ack_sequence window tcp_options ignore_ts_val
        abs_ts_ecr abs_seq ignore_seq udp_src_port udp_dst_port =
      Except.error BuildError.headerTooLarge) ∧
    (tcpHeaderBytesOf tcp_options = MAX_TCP_HEADER_BYTES →
      ipBytesOf address_family tcp_options tcp_payload_bytes
        udp_src_port udp_dst_port ≤ MAX_TCP_DATAGRAM_BYTES →
      is_tcp_flags_spec_valid flags false false = Except.ok () →
      ¬(window = -1 ∧ direction = Direction.inbound) →
      ∃ p, new_tcp_packet setIp address_family direction ecn flags
        start_sequence tcp_payload_bytes ack_sequence window tcp_options
        ignore_ts_val abs_ts_ecr abs_seq ignore_seq
        udp_src_port udp_dst_port = Except.ok p) :=
  ⟨fun h3 => new_tcp_packet_eq_error_toolarge setIp address_family direction
      ecn flags start_sequence tcp_payload_bytes ack_sequence window
      tcp_options ignore_ts_val abs_ts_ecr abs_seq ignore_seq
      udp_src_port udp_dst_port h2 h3,
   fun heq h4 h5 h6 => ⟨_, new_tcp_packet_eq_ok setIp address_family
      direction ecn flags start_sequence tcp_payload_bytes ack_sequence
      window tcp_options ignore_ts_val abs_ts_ecr abs_seq ignore_seq
      udp_src_port udp_dst_port h2 (le_of_eq heq) h4 h5 h6⟩⟩

/-- Witness for C7: 44 option bytes (header 64) fail, 40 option bytes
(header exactly 60) succeed. -/
theorem claim_C7_witness :
    new_tcp_packet zeroIpWriter AddressFamily.afInet Direction.outbound 0
      ['S'] 1 0 0 100 (some ⟨44, []⟩) false false false false 0 0 =
      Except.error BuildError.headerTooLarge ∧
    ∃ p, new_tcp_packet zeroIpWriter AddressFamily.afInet Direction.outbound
      0 ['S'] 1 0 0 100 (some ⟨40, []⟩) false false false false 0 0 =
      Except.ok p :=
  ⟨(claim_C7 zeroIpWriter AddressFamily.afInet Direction.outbound 0 ['S']
      1 0 0 100 (some ⟨44, []⟩) false false false false 0 0
      (by decide)).1 (by decide),
   (claim_C7 zeroIpWriter AddressFamily.afInet Direction.outbound 0 ['S']
      1 0 0 100 (some ⟨40, []⟩) false false false false 0 0
      (by decide)).2 (by decide) (by decide) rfl (by decide)⟩

theorem slice5_second (A U S O R : List Nat) (n m : Nat)
    (hA : A.length = n) (hU : U.length = m) :
    (((((A ++ U) ++ S) ++ O) ++ R).drop n).take m = U := by
  simp only [List.append_assoc]
  rw [drop_len_append A _ n hA, take_len_append U _ m hU]

theorem slice5_third (A U S O R : List Nat) (n m k : Nat)
    (hA : A.length = n) (hU : U.length = m) (hS : S.length = k) :
    (((((A ++ U) ++ S) ++ O) ++ R).drop (n + m)).take k = S := by
  simp only [List.append_assoc]
  have hsplit : A ++ (U ++ (S ++ (O ++ R))) = (A ++ U) ++ (S ++ (O ++ R)) :=
    (List.append_assoc A U (S ++ (O ++ R))).symm
  rw [hsplit, drop_len_append (A ++ U) _ (n + m)
    (by simp [List.length_append, hA, hU]), take_len_append S _ k hS]

theorem slice4_second (A S O R : List Nat) (n k : Nat)
    (hA : A.length = n) (hS : S.length = k) :
    ((((A ++ S) ++ O) ++ R).drop n).take k = S := by
  simp only [List.append_assoc]
  rw [drop_len_append A _ n hA, take_len_append S _ k hS]

/-- C8: when a UDP port is non-zero the built packet wraps the TCP segment
in UDP: the buffer is 8 bytes larger, holds the UDP header right after the
IP header with both ports in network byte order, a length field of
udp header + tcp header + payload in network byte order and a zero
checksum, and the TCP header follows the UDP header; with both ports zero
there is no UDP header and the TCP header starts right after the IP
header. -/
theorem claim_C8 (setIp : IpWriter) (address_family : AddressFamily)
    (direction : Direction) (ecn : Nat) (flags : List Char)
    (start_sequence tcp_payload_bytes ack_sequence : Nat) (window : Int)
    (tcp_options : Option TcpOptions)
    (ignore_ts_val abs_ts_ecr abs_seq ignore_seq : Bool)
    (udp_src_port udp_dst_port : Nat) (p : Packet)
    (hok : new_tcp_packet setIp address_family direction ecn flags
      start_sequence tcp_payload_bytes ack_sequence window tcp_options
      ignore_ts_val abs_ts_ecr abs_seq ignore_seq
      udp_src_port udp_dst_port = Except.ok p) :
    ((0 < udp_src_port ∨ 0 < udp_dst_port) →
      p.buffer.length = ip_header_min_len address_family + sizeof_udp +
        tcpHeaderBytesOf tcp_options + tcp_payload_bytes ∧
      (p.buffer.drop (ip_header_min_len address_family)).take 8 =
        be16 udp_src_port ++ be16 udp_dst_port ++
        be16 (sizeof_udp + tcpHeaderBytesOf tcp_options +
          tcp_payload_bytes) ++ be16 0 ∧
      (p.buffer.drop (ip_header_min_len address_family + 8)).take 20 =
        serializeTcp p.tcp) ∧
    (udp_src_port = 0 → udp_dst_port = 0 →
      p.buffer.length = ip_header_min_len address_family +
        tcpHeaderBytesOf tcp_options + tcp_payload_bytes ∧
      (p.buffer.drop (ip_header_min_len address_family)).take 20 =
        serializeTcp p.tcp) := by
  have hp := new_tcp_packet_ok_inv setIp address_family direction ecn flags
    start_sequence tcp_payload_bytes ack_sequence window tcp_options
    ignore_ts_val abs_ts_ecr abs_seq ignore_seq udp_src_port udp_dst_port
    p hok
  subst hp
  constructor
  · intro hports
    have henc : encapsulateOf udp_src_port udp_dst_port = true := by
      simpa [encapsulateOf] using hports
    refine ⟨?_, ?_, ?_⟩
    · simp only [buildPacket, henc, reduceIte]
      simp [List.length_append, length_padTake, length_serializeTcp,
        length_optBytesOf, be16, List.length_replicate, tcpHeaderBytesOf,
        sizeof_tcp, sizeof_udp, ip_option_bytes]
      omega
    · simp only [buildPacket, henc, reduceIte]
      exact slice5_second _ _ _ _ _ _ _
        (by rw [length_padTake]; simp [ip_option_bytes]) (by simp [be16])
    · simp only [buildPacket, henc, reduceIte]
      exact slice5_third _ _ _ _ _ _ _ _
        (by rw [length_padTake]; simp [ip_option_bytes]) (by simp [be16])
        (length_serializeTcp _)
  · intro h1 h2
    subst h1; subst h2
    have henc : encapsulateOf 0 0 = false := rfl
    constructor
    · simp only [buildPacket, henc, Bool.false_eq_true, if_false,
        List.append_nil]
      simp [List.length_append, length_padTake, length_serializeTcp,
        length_optBytesOf, List.length_replicate, tcpHeaderBytesOf,
        sizeof_tcp, ip_option_bytes]
      omega
    · simp only [buildPacket, henc, Bool.false_eq_true, if_false,
        List.append_nil]
      exact slice4_second _ _ _ _ _ _
        (by rw [length_padTake]; simp [ip_option_bytes])
        (length_serializeTcp _)

/-- Witness for C8 at ports 5000/6000 and at ports 0/0. -/
theorem claim_C8_witness :
    ((buildPacket zeroIpWriter AddressFamily.afInet Direction.outbound 0
      ['.'] 1 0 0 100 none false false false false 5000 6000).buffer.drop
        (ip_header_min_len AddressFamily.afInet)).take 8 =
      be16 5000 ++ be16 6000 ++
      be16 (sizeof_udp + tcpHeaderBytesOf none + 0) ++ be16 0 ∧
    ((buildPacket zeroIpWriter AddressFamily.afInet Direction.outbound 0
      ['.'] 1 0 0 100 none false false false false 0 0).buffer.drop
        (ip_header_min_len AddressFamily.afInet)).take 20 =
      serializeTcp (buildPacket zeroIpWriter AddressFamily.afInet
        Direction.outbound 0 ['.'] 1 0 0 100 none false false false false
        0 0).tcp :=
  ⟨((claim_C8 zeroIpWriter AddressFamily.afInet Direction.outbound 0 ['.']
      1 0 0 100 none false false false false 5000 6000 _ rfl).1
      (by decide)).2.1,
   ((claim_C8 zeroIpWriter AddressFamily.afInet Direction.outbound 0 ['.']
      1 0 0 100 none false false false false 0 0 _ rfl).2 rfl rfl).2⟩

/-- C9: the four auxiliary hint booleans only feed the hint-flag bitset;
two calls of new_tcp_packet differing only in them produce identical
buffer bytes (and identical errors on the failure paths). -/
theorem claim_C9 (setIp : IpWriter) (address_family : AddressFamily)
    (direction : Direction) (ecn : Nat) (flags : List Char)
    (start_sequence tcp_payload_bytes ack_sequence : Nat) (window : Int)
    (tcp_options : Option TcpOptions) (udp_src_port udp_dst_port : Nat)
    (b1 b2 b3 b4 e1 e2 e3 e4 : Bool) :
    Except.map Packet.buffer (new_tcp_packet setIp address_family direction
      ecn flags start_sequence tcp_payload_bytes ack_sequence window
      tcp_options b1 b2 b3 b4 udp_src_port udp_dst_port) =
    Except.map Packet.buffer (new_tcp_packet setIp address_family direction
      ecn flags start_sequence tcp_payload_bytes ack_sequence window
      tcp_options e1 e2 e3 e4 udp_src_port udp_dst_port) := by
  unfold new_tcp_packet
  by_cases h1 : ip_option_bytes % 4 ≠ 0
  · simp only [if_pos h1]
  · simp only [if_neg h1]
    by_cases h2 : tcpOptionBytesOf tcp_options % 4 ≠ 0
    · simp only [if_pos h2]
    · simp only [if_neg h2]
      by_cases h3 : MAX_TCP_HEADER_BYTES < tcpHeaderBytesOf tcp_options
      · simp only [if_pos h3]
      · simp only [if_neg h3]
        by_cases h4 : MAX_TCP_DATAGRAM_BYTES <
            ipBytesOf address_family tcp_options tcp_payload_bytes
              udp_src_port udp_dst_port
        · simp only [if_pos h4]
        · simp only [if_neg h4]
          cases h5 : is_tcp_flags_spec_valid flags false false with
          | error e => rfl
          | ok u =>
            by_cases h6 : window = -1 ∧ direction = Direction.inbound
            · simp only [if_pos h6]
            · simp only [if_neg h6]
              rfl
